import Mathlib

/-!
Shallow embedding of the LawScanner OCR/summarization core
(`src/app/api/ocr/route.ts` and `src/app/api/summarize/route.ts`).

JavaScript runtime values flowing through the summarize endpoint are
modelled by `JsonVal` (numbers as rationals); a JS object is an ordered
association list `JsonObj`; an absent property is `Option.none`.
JS truthiness is `truthy` (undefined/null/false/0/"" are falsy).
-/

/-- A JSON/JS runtime value.  Numbers are modelled as rationals. -/
inductive JsonVal : Type where
  | null : JsonVal
  | bool : Bool → JsonVal
  | num : ℚ → JsonVal
  | str : String → JsonVal
  | arr : List JsonVal → JsonVal
  | obj : List (String × JsonVal) → JsonVal

/-- A JS object: an ordered association list of fields. -/
abbrev JsonObj := List (String × JsonVal)

/-- Property lookup on an object's field list (first match). -/
def getF : JsonObj → String → Option JsonVal
  | [], _ => none
  | (k, v) :: rest, key => if k = key then some v else getF rest key

/-- JS truthiness of a value: `null`, `false`, `0` and `""` are falsy. -/
def truthy : JsonVal → Bool
  | .null => false
  | .bool b => b
  | .num q => decide (q ≠ 0)
  | .str s => decide (s ≠ "")
  | .arr _ => true
  | .obj _ => true

/-- JS truthiness of a possibly-absent value (`undefined` is falsy). -/
def truthyOpt : Option JsonVal → Bool
  | none => false
  | some v => truthy v

/-- JS property access `v.key`: fields of an object, `undefined` otherwise
(primitive values have no own properties). -/
def fieldOf : JsonVal → String → Option JsonVal
  | .obj fs, key => getF fs key
  | _, _ => none

/-- JS `a || d` applied to a possibly-absent value. -/
def jsOr (v : Option JsonVal) (d : JsonVal) : JsonVal :=
  match v with
  | some x => if truthy x then x else d
  | none => d

/-- `Array.isArray(v) ? v : []`. -/
def arrOrEmpty (v : Option JsonVal) : JsonVal :=
  match v with
  | some (.arr xs) => .arr xs
  | _ => .arr []

/-- `typeof v === 'number' ? Math.min(1, Math.max(0, v)) : 0.5`. -/
def normConfidence (v : Option JsonVal) : JsonVal :=
  match v with
  | some (.num q) => .num (min 1 (max 0 q))
  | _ => .num (1/2 : ℚ)

/-- `validateAndNormalizeSummary` from `src/app/api/summarize/route.ts`:
field-by-field repair of an arbitrary candidate summary object. -/
def validateAndNormalizeSummary (summary : JsonObj) : JsonObj :=
  [("short_summary",
      jsOr (getF summary "short_summary")
        (.str "Unable to generate summary - document analysis incomplete")),
   ("parties", arrOrEmpty (getF summary "parties")),
   ("important_dates", arrOrEmpty (getF summary "important_dates")),
   ("obligations", arrOrEmpty (getF summary "obligations")),
   ("payment_terms", jsOr (getF summary "payment_terms") .null),
   ("termination_clauses", jsOr (getF summary "termination_clauses") .null),
   ("governing_law", jsOr (getF summary "governing_law") .null),
   ("risk_flags", arrOrEmpty (getF summary "risk_flags")),
   ("suggested_redactions", arrOrEmpty (getF summary "suggested_redactions")),
   ("confidence_score", normConfidence (getF summary "confidence_score"))]

/-- `getMockSummary` from `src/app/api/summarize/route.ts`, as the JS object
value it returns (fields in source order). -/
def getMockSummary : JsonObj :=
  [("short_summary",
      .str "This is a service agreement between two companies establishing terms for consulting services."),
   ("parties", .arr
      [.obj [("role", .str "Service Provider"),
             ("name", .str "Example Consulting LLC"),
             ("excerpt", .str "Example Consulting LLC, a Delaware limited liability company")],
       .obj [("role", .str "Client"),
             ("name", .str "Business Corp"),
             ("excerpt", .str "Business Corp, a California corporation")]]),
   ("important_dates", .arr
      [.obj [("type", .str "Effective Date"),
             ("date", .str "2024-01-15"),
             ("excerpt", .str "This Agreement is effective as of January 15, 2024")],
       .obj [("type", .str "Initial Term End"),
             ("date", .str "2025-01-15"),
             ("excerpt", .str "The initial term shall end on January 15, 2025")]]),
   ("obligations", .arr
      [.obj [("who", .str "Service Provider"),
             ("action", .str "Provide monthly consulting services as outlined in Exhibit A"),
             ("excerpt", .str "Provider shall deliver consulting services according to the scope in Exhibit A")],
       .obj [("who", .str "Client"),
             ("action", .str "Pay invoices within 30 days of receipt"),
             ("excerpt", .str "Client agrees to pay all invoices within thirty (30) days")]]),
   ("payment_terms",
      .str "Monthly invoicing with Net 30 payment terms. Late payments subject to 1.5% monthly interest."),
   ("termination_clauses",
      .str "Either party may terminate with 30 days written notice. Immediate termination allowed for material breach."),
   ("governing_law", .str "State of Delaware"),
   ("risk_flags", .arr
      [.obj [("score", .num 4),
             ("reason", .str "Broad indemnification clause may expose client to significant liability")],
       .obj [("score", .num 2),
             ("reason", .str "Standard limitation of liability clause limits provider exposure")]]),
   ("suggested_redactions", .arr []),
   ("confidence_score", .num (19/20))]

/-- A response of the summarize endpoint: a 200 JSON body, or an error
status with an `error` message and optional `details`. -/
inductive SResponse : Type where
  | ok : JsonObj → SResponse
  | err : Nat → String → Option String → SResponse

/-- `s` is truthy as a JS string-or-undefined (environment variable). -/
def truthyS : Option String → Bool
  | none => false
  | some s => decide (s ≠ "")

/-- The `POST` handler of `src/app/api/summarize/route.ts`.

`skip_llm` and `gemini_api_key` are the environment variables `SKIP_LLM`
and `GEMINI_API_KEY`; `llm` stands for the Gemini call together with the
JSON extraction of its textual answer (`Except.error` covers a thrown
backend/parse error, which the surrounding `catch` turns into a 500);
`ocr_result` / `user_instructions` are the request body fields. -/
def summarizePost (skip_llm gemini_api_key : Option String)
    (llm : Except String JsonObj)
    (ocr_result : Option JsonVal) (_user_instructions : Option JsonVal) :
    SResponse :=
  if ¬ truthyOpt ocr_result then
    .err 400 "No OCR result provided" none
  else if skip_llm = some "true" then
    .ok getMockSummary
  else
    let ocrData := ocr_result.getD .null
    if ¬ truthyOpt (fieldOf ocrData "meta") ∨ ¬ truthyOpt (fieldOf ocrData "ocr") then
      .err 400 "Invalid OCR result structure" none
    else if ¬ truthyS gemini_api_key then
      .ok getMockSummary
    else
      match llm with
      | .error e => .err 500 "Summarization failed" (some e)
      | .ok candidate => .ok (validateAndNormalizeSummary candidate)

/-!
Canonical OCR data model (`src/app/api/ocr/route.ts`, exported interfaces).
-/

/-- The closed block-type tag of `OCRBlock`. -/
inductive BlockType : Type where
  | LINE | WORD | PARAGRAPH
deriving DecidableEq, Repr

/-- An axis-aligned bounding box. -/
structure BoundingBox : Type where
  x : ℚ
  y : ℚ
  width : ℚ
  height : ℚ
deriving DecidableEq, Repr

/-- `OCRBlock` of `src/app/api/ocr/route.ts`. -/
structure OCRBlock : Type where
  id : String
  text : String
  confidence : ℚ
  boundingBox : BoundingBox
  blockType : BlockType
deriving DecidableEq, Repr

/-- `OCREntity` of `src/app/api/ocr/route.ts` (`mentionText` is optional). -/
structure OCREntity : Type where
  type : String
  text : String
  page : ℕ
  confidence : ℚ
  mentionText : Option String
deriving DecidableEq, Repr

/-- `OCRPageResult` of `src/app/api/ocr/route.ts`. -/
structure OCRPageResult : Type where
  page : ℕ
  text : String
  blocks : List OCRBlock
  entities : List OCREntity
  confidence : ℚ
deriving DecidableEq, Repr

/-- The `meta` part of `OCRResult`. -/
structure OCRMeta : Type where
  filename : String
  pages : ℕ
  provider : String
  processedAt : String
deriving DecidableEq, Repr

/-- `OCRResult` of `src/app/api/ocr/route.ts`. -/
structure OCRResult : Type where
  meta : OCRMeta
  ocr : List OCRPageResult
deriving DecidableEq, Repr

/-!
Google Document AI response shape (the parts `processWithGoogleDocumentAI`
reads; every field may be absent, hence `Option`).
-/

structure GVertex : Type where
  x : Option ℚ
  y : Option ℚ
deriving DecidableEq, Repr

structure GBoundingPoly : Type where
  normalizedVertices : Option (List GVertex)
deriving DecidableEq, Repr

structure GTextSegment : Type where
  startIndex : Option ℕ
  endIndex : Option ℕ
deriving DecidableEq, Repr

structure GTextAnchor : Type where
  textSegments : Option (List GTextSegment)
deriving DecidableEq, Repr

structure GLayout : Type where
  textAnchor : Option GTextAnchor
  confidence : Option ℚ
  boundingPoly : Option GBoundingPoly
deriving DecidableEq, Repr

structure GBlock : Type where
  layout : Option GLayout
deriving DecidableEq, Repr

structure GLine : Type where
  layout : Option GLayout
deriving DecidableEq, Repr

structure GPage : Type where
  blocks : Option (List GBlock)
  lines : Option (List GLine)
deriving DecidableEq, Repr

structure GPageRef : Type where
  page : Option ℕ
deriving DecidableEq, Repr

structure GPageAnchor : Type where
  pageRefs : Option (List GPageRef)
deriving DecidableEq, Repr

structure GNormalizedValue : Type where
  text : Option String
deriving DecidableEq, Repr

/-- A document-level entity of the Document AI response (the source field
`type` is kept; `mentionText` and `normalizedValue.text` may be absent). -/
structure GEntity : Type where
  type : Option String
  mentionText : Option String
  normalizedValue : Option GNormalizedValue
  confidence : Option ℚ
  pageAnchor : Option GPageAnchor
deriving DecidableEq, Repr

structure GDocument : Type where
  text : Option String
  pages : Option (List GPage)
  entities : Option (List GEntity)
deriving DecidableEq, Repr

/-- JS `v || 0` on a possibly-absent number (absent and 0 both give 0). -/
def qOrZero : Option ℚ → ℚ
  | some q => q
  | none => 0

/-- JS `v || undefined`-style truthiness filter on a possibly-absent
string: keeps the string only when it is present and non-empty. -/
def strOrTruthy : Option String → Option String
  | some s => if s = "" then none else some s
  | none => none

/-- ECMAScript `String.prototype.trim`: strip leading and trailing
whitespace (a kernel-reducible counterpart of `String.trim`). -/
def jsTrim (s : String) : String :=
  String.mk (((s.toList.dropWhile Char.isWhitespace).reverse.dropWhile
    Char.isWhitespace).reverse)

/-- ECMAScript `String.prototype.substring`: both indices are clamped to
the string length and swapped when out of order. -/
def jsSubstring (s : String) (a b : ℕ) : String :=
  let len := s.length
  let lo := min (min a len) (min b len)
  let hi := max (min a len) (min b len)
  String.mk ((s.toList.drop lo).take (hi - lo))

/-- `extractTextFromLayout` of `src/app/api/ocr/route.ts`: concatenate the
substrings addressed by the layout's text segments and trim. -/
def extractTextFromLayout (layout : GLayout) (fullText : String) : String :=
  match layout.textAnchor with
  | none => ""
  | some anchor =>
    match anchor.textSegments with
    | none => ""
    | some segs =>
      jsTrim (segs.foldl (fun text seg =>
        text ++ jsSubstring fullText (seg.startIndex.getD 0) (seg.endIndex.getD 0)) "")

/-- `extractBoundingBox` of `src/app/api/ocr/route.ts`. -/
def extractBoundingBox (boundingPoly : Option GBoundingPoly) : BoundingBox :=
  match boundingPoly with
  | none => ⟨0, 0, 0, 0⟩
  | some poly =>
    match poly.normalizedVertices with
    | none => ⟨0, 0, 0, 0⟩
    | some vertices =>
      if vertices.length < 4 then ⟨0, 0, 0, 0⟩
      else
        let x := qOrZero ((vertices.get? 0).bind GVertex.x)
        let y := qOrZero ((vertices.get? 0).bind GVertex.y)
        let width := qOrZero ((vertices.get? 1).bind GVertex.x) - x
        let height := qOrZero ((vertices.get? 2).bind GVertex.y) - y
        ⟨x, y, width, height⟩

/-- The block-collection loop of `processWithGoogleDocumentAI`: one pass
over the layouts of a page's blocks (or lines), skipping entries without a
layout and accumulating the pushed canonical blocks, the page text, the
confidence total and the pushed-block count.  `pre` is the id prefix
(`"block-<i>-"` or `"line-<i>-"`), `k` the number of blocks pushed so
far (the id suffix). -/
def layoutLoop (pre : String) (bt : BlockType) (fullText : String) :
    ℕ → List (Option GLayout) → List OCRBlock × String × ℚ × ℕ
  | _, [] => ([], "", 0, 0)
  | k, none :: rest => layoutLoop pre bt fullText k rest
  | k, some layout :: rest =>
    let blockText := extractTextFromLayout layout fullText
    let confidence := qOrZero layout.confidence
    let r := layoutLoop pre bt fullText (k + 1) rest
    ({ id := pre ++ toString k, text := blockText, confidence := confidence,
       boundingBox := extractBoundingBox layout.boundingPoly,
       blockType := bt } :: r.1,
     blockText ++ "\n" ++ r.2.1, confidence + r.2.2.1, 1 + r.2.2.2)

/-- The entity-collection pass of `processWithGoogleDocumentAI` for page
index `i`: a document-level entity is attached when its first page
reference matches `i`, or when it carries no page reference at all. -/
def googleEntities (doc : GDocument) (i : ℕ) : List OCREntity :=
  (doc.entities.getD []).filterMap (fun entity =>
    let entityPage :=
      ((entity.pageAnchor.bind GPageAnchor.pageRefs).bind List.head?).bind GPageRef.page
    let keep := match entityPage with
      | none => true
      | some p => decide (p = i)
    if keep then
      some { type := (strOrTruthy entity.type).getD "UNKNOWN",
             text := ((strOrTruthy entity.mentionText).orElse
               (fun _ => strOrTruthy (entity.normalizedValue.bind GNormalizedValue.text))).getD "",
             page := i + 1,
             confidence := qOrZero entity.confidence,
             mentionText := entity.mentionText }
    else none)

/-- The block/text/confidence accumulation for page index `i` of
`processWithGoogleDocumentAI`: paragraph blocks first, line fallback when
no block was pushed and the page has a `lines` field. -/
def googlePageRaw (doc : GDocument) (i : ℕ) : List OCRBlock × String × ℚ × ℕ :=
  let fullText := doc.text.getD ""
  let page := doc.pages.bind (fun ps => ps.get? i)
  let fromBlocks :=
    layoutLoop ("block-" ++ toString i ++ "-") .PARAGRAPH fullText 0
      (((page.bind GPage.blocks).getD []).map GBlock.layout)
  if fromBlocks.1 = [] ∧ (page.bind GPage.lines).isSome then
    layoutLoop ("line-" ++ toString i ++ "-") .LINE fullText 0
      (((page.bind GPage.lines).getD []).map GLine.layout)
  else fromBlocks

/-- One iteration of the page loop of `processWithGoogleDocumentAI`:
the accumulated blocks and text, the page's entities, and the mean page
confidence. -/
def googlePage (doc : GDocument) (i : ℕ) : OCRPageResult :=
  { page := i + 1, text := jsTrim (googlePageRaw doc i).2.1,
    blocks := (googlePageRaw doc i).1,
    entities := googleEntities doc i,
    confidence :=
      if (googlePageRaw doc i).2.2.2 > 0 then
        (googlePageRaw doc i).2.2.1 / ((googlePageRaw doc i).2.2.2 : ℚ)
      else 0 }

/-- The response-parsing part of `processWithGoogleDocumentAI`
(`src/app/api/ocr/route.ts`): `document` is the `document` field of the
Document AI response, `now` the current ISO timestamp. -/
def googleParseResponse (document : Option GDocument) (filename now : String) :
    Except String OCRResult :=
  match document with
  | none => .error "No document returned from Document AI"
  | some doc =>
    let pageCount := match doc.pages with
      | some l => if l.length = 0 then 1 else l.length
      | none => 1
    .ok { meta := { filename := filename, pages := pageCount,
                    provider := "google-document-ai", processedAt := now },
          ocr := (List.range pageCount).map (googlePage doc) }

/-- The Google Cloud environment variables read by
`processWithGoogleDocumentAI`. -/
structure GoogleConfig : Type where
  projectId : Option String
  location : Option String
  processorId : Option String
  serviceAccountEmail : Option String
  privateKey : Option String

/-- `processWithGoogleDocumentAI` of `src/app/api/ocr/route.ts`:
configuration checks, then the backend call (whose returned `document`
field is the `document` parameter) and response parsing. -/
def processWithGoogleDocumentAI (cfg : GoogleConfig)
    (document : Option GDocument) (filename now : String) :
    Except String OCRResult :=
  if ¬ truthyS cfg.projectId ∨ ¬ truthyS cfg.location ∨ ¬ truthyS cfg.processorId then
    .error "Missing Google Cloud configuration. Please set GOOGLE_CLOUD_PROJECT_ID, GOOGLE_CLOUD_LOCATION, and GOOGLE_DOCUMENT_AI_PROCESSOR_ID in your environment variables."
  else if ¬ truthyS cfg.serviceAccountEmail ∨ ¬ truthyS cfg.privateKey then
    .error "Missing Google Cloud credentials. Please set GOOGLE_SERVICE_ACCOUNT_EMAIL and GOOGLE_PRIVATE_KEY in your environment variables."
  else
    googleParseResponse document filename now

/-!
AWS Textract response shape (the parts `processWithAWSTextract` reads).
-/

structure TBoundingBox : Type where
  Left : Option ℚ
  Top : Option ℚ
  Width : Option ℚ
  Height : Option ℚ
deriving DecidableEq, Repr

structure TGeometry : Type where
  BoundingBox : Option TBoundingBox
deriving DecidableEq, Repr

/-- A Textract relationship; the source field `Type` is `typ` here
(`Type` is a Lean keyword). -/
structure TRelationship : Type where
  typ : Option String
  Ids : Option (List String)
deriving DecidableEq, Repr

structure TBlock : Type where
  BlockType : Option String
  Text : Option String
  Confidence : Option ℚ
  Id : Option String
  Geometry : Option TGeometry
  EntityTypes : Option (List String)
  Relationships : Option (List TRelationship)
deriving DecidableEq, Repr

/-- The `blockMap` of `processWithAWSTextract`: a `Map` from block id to
block, built left to right (a later binding for the same id wins). -/
def buildBlockMap (blocks : List TBlock) : String → Option TBlock :=
  blocks.foldl (fun m block =>
    match block.Id with
    | some id => fun q => if q = id then some block else m q
    | none => m) (fun _ => none)

/-- `block.Confidence ? block.Confidence / 100 : 0` (Textract reports
confidence on a 0-100 scale; 0 is falsy). -/
def awsConfidence : Option ℚ → ℚ
  | some q => if q = 0 then 0 else q / 100
  | none => 0

/-- `getTextFromRelationships` of `src/app/api/ocr/route.ts`: concatenate
the text of related WORD blocks with trailing spaces, then trim. -/
def getTextFromRelationships (block : TBlock) (blockMap : String → Option TBlock)
    (relationshipType : String) : String :=
  jsTrim ((block.Relationships.getD []).foldl (fun text relationship =>
    if relationship.typ = some relationshipType ∧ relationship.Ids ≠ none then
      (relationship.Ids.getD []).foldl (fun t id =>
        match blockMap id with
        | some relatedBlock =>
          if relatedBlock.BlockType = some "WORD" ∧ truthyS relatedBlock.Text then
            t ++ relatedBlock.Text.getD "" ++ " "
          else t
        | none => t) text
    else text) "")

/-- `getValueBlock` of `src/app/api/ocr/route.ts`: follow the first VALUE
relationship edge to a KEY_VALUE_SET block tagged VALUE. -/
def getValueBlock (keyBlock : TBlock) (blockMap : String → Option TBlock) :
    Option TBlock :=
  (keyBlock.Relationships.getD []).findSome? (fun relationship =>
    if relationship.typ = some "VALUE" ∧ relationship.Ids ≠ none then
      (relationship.Ids.getD []).findSome? (fun id =>
        match blockMap id with
        | some valueBlock =>
          if valueBlock.BlockType = some "KEY_VALUE_SET" ∧
             (valueBlock.EntityTypes.getD []).contains "VALUE" then
            some valueBlock
          else none
        | none => none)
    else none)

/-- The LINE-block pass of `processWithAWSTextract`: accumulates the
pushed canonical blocks, the page text, the confidence total and the
pushed-block count; `k` is the number of blocks pushed so far (used for
the fallback id). -/
def awsLineLoop : ℕ → List TBlock → List OCRBlock × String × ℚ × ℕ
  | _, [] => ([], "", 0, 0)
  | k, block :: rest =>
    if block.BlockType = some "LINE" ∧ truthyS block.Text then
      let confidence := awsConfidence block.Confidence
      let r := awsLineLoop (k + 1) rest
      ({ id := (strOrTruthy block.Id).getD ("block-" ++ toString k),
         text := block.Text.getD "",
         confidence := confidence,
         boundingBox :=
           { x := qOrZero ((block.Geometry.bind TGeometry.BoundingBox).bind TBoundingBox.Left),
             y := qOrZero ((block.Geometry.bind TGeometry.BoundingBox).bind TBoundingBox.Top),
             width := qOrZero ((block.Geometry.bind TGeometry.BoundingBox).bind TBoundingBox.Width),
             height := qOrZero ((block.Geometry.bind TGeometry.BoundingBox).bind TBoundingBox.Height) },
         blockType := .LINE } :: r.1,
       block.Text.getD "" ++ "\n" ++ r.2.1, confidence + r.2.2.1, 1 + r.2.2.2)
    else awsLineLoop k rest

/-- The KEY_VALUE_SET pass of `processWithAWSTextract`: key/value pairs
become `KEY_VALUE` entities on page 1 (skipped when the key text is
empty). -/
def awsEntities (blockMap : String → Option TBlock) : List TBlock → List OCREntity
  | [] => []
  | block :: rest =>
    if block.BlockType = some "KEY_VALUE_SET" ∧
       (block.EntityTypes.getD []).contains "KEY" then
      let keyText := getTextFromRelationships block blockMap "CHILD"
      let valueText := match getValueBlock block blockMap with
        | some valueBlock => getTextFromRelationships valueBlock blockMap "CHILD"
        | none => ""
      if keyText ≠ "" then
        { type := "KEY_VALUE", text := keyText ++ ": " ++ valueText, page := 1,
          confidence := awsConfidence block.Confidence,
          mentionText := none } :: awsEntities blockMap rest
      else awsEntities blockMap rest
    else awsEntities blockMap rest

/-- `processWithAWSTextract` of `src/app/api/ocr/route.ts`: `Blocks` is
the `Blocks` field of the Textract `AnalyzeDocument` response (absent
only when the response carries no such field; an empty list is a present,
truthy value).  Produces a single-page result. -/
def processWithAWSTextract (Blocks : Option (List TBlock)) (filename now : String) :
    Except String OCRResult :=
  match Blocks with
  | none => .error "No blocks returned from Textract"
  | some responseBlocks =>
    let blockMap := buildBlockMap responseBlocks
    let r := awsLineLoop 0 responseBlocks
    .ok { meta := { filename := filename, pages := 1,
                    provider := "aws-textract", processedAt := now },
          ocr := [{ page := 1, text := jsTrim r.2.1, blocks := r.1,
                    entities := awsEntities blockMap responseBlocks,
                    confidence := if r.2.2.2 > 0 then r.2.2.1 / (r.2.2.2 : ℚ) else 0 }] }

/-!
Summary Request Builder (`POST` of `src/app/api/summarize/route.ts`): the
`input` object sent to Gemini.
-/

structure GeminiPage : Type where
  page : ℕ
  text : String
  blocks : List OCRBlock
  entities : List OCREntity
deriving DecidableEq, Repr

structure GeminiInput : Type where
  meta : OCRMeta
  ocr : List GeminiPage
  user_instructions : String
deriving DecidableEq, Repr

/-- The `input` object built in `POST` of `src/app/api/summarize/route.ts`:
per page, blocks are capped with `slice(0, 50)` while entities are passed
through; absent or empty user instructions get the fixed default. -/
def buildGeminiInput (ocrData : OCRResult) (user_instructions : Option String) :
    GeminiInput :=
  { meta := ocrData.meta,
    ocr := ocrData.ocr.map (fun page =>
      { page := page.page, text := page.text, blocks := page.blocks.take 50,
        entities := page.entities }),
    user_instructions :=
      (strOrTruthy user_instructions).getD "Analyze this legal document thoroughly" }

/-- The arithmetic mean of the block confidences of a page (0 for no
blocks). -/
def meanConfidence (blocks : List OCRBlock) : ℚ :=
  if blocks.length = 0 then 0
  else (blocks.map OCRBlock.confidence).sum / (blocks.length : ℚ)

/-!
Shape predicates on possibly-absent JSON values, used to state the
Summary Result invariants of the spec.
-/

/-- The value is a present, non-empty string. -/
def isNonEmptyStrB : Option JsonVal → Bool
  | some (.str s) => decide (s ≠ "")
  | _ => false

/-- The value is a present array. -/
def isArrB : Option JsonVal → Bool
  | some (.arr _) => true
  | _ => false

/-- The value is a present string or the explicit absent marker `null`. -/
def strOrNullB : Option JsonVal → Bool
  | some (.str _) => true
  | some .null => true
  | _ => false

/-- The value is a present non-empty string or `null`. -/
def nonEmptyStrOrNullB : Option JsonVal → Bool
  | some (.str s) => decide (s ≠ "")
  | some .null => true
  | _ => false

/-- The value is a present number in `[0, 1]`. -/
def confInRangeB : Option JsonVal → Bool
  | some (.num q) => decide ((0:ℚ) ≤ q) && decide (q ≤ 1)
  | _ => false

/-- The value is a present number. -/
def isNumB : Option JsonVal → Bool
  | some (.num _) => true
  | _ => false

/-- The candidate field is absent, `null`, or a string (the shapes for
which the source's `||`-defaulting yields a string or `null`). -/
def stringlikeB : Option JsonVal → Bool
  | none => true
  | some .null => true
  | some (.str _) => true
  | _ => false

/-!
Field projections of the normalizer's output.
-/

lemma vans_def (s : JsonObj) : validateAndNormalizeSummary s =
    [("short_summary",
        jsOr (getF s "short_summary")
          (.str "Unable to generate summary - document analysis incomplete")),
     ("parties", arrOrEmpty (getF s "parties")),
     ("important_dates", arrOrEmpty (getF s "important_dates")),
     ("obligations", arrOrEmpty (getF s "obligations")),
     ("payment_terms", jsOr (getF s "payment_terms") .null),
     ("termination_clauses", jsOr (getF s "termination_clauses") .null),
     ("governing_law", jsOr (getF s "governing_law") .null),
     ("risk_flags", arrOrEmpty (getF s "risk_flags")),
     ("suggested_redactions", arrOrEmpty (getF s "suggested_redactions")),
     ("confidence_score", normConfidence (getF s "confidence_score"))] := rfl

lemma getF_vans_short_summary (c : JsonObj) :
    getF (validateAndNormalizeSummary c) "short_summary"
      = some (jsOr (getF c "short_summary")
          (.str "Unable to generate summary - document analysis incomplete")) := rfl

lemma getF_vans_parties (c : JsonObj) :
    getF (validateAndNormalizeSummary c) "parties"
      = some (arrOrEmpty (getF c "parties")) := rfl

lemma getF_vans_important_dates (c : JsonObj) :
    getF (validateAndNormalizeSummary c) "important_dates"
      = some (arrOrEmpty (getF c "important_dates")) := rfl

lemma getF_vans_obligations (c : JsonObj) :
    getF (validateAndNormalizeSummary c) "obligations"
      = some (arrOrEmpty (getF c "obligations")) := rfl

lemma getF_vans_payment_terms (c : JsonObj) :
    getF (validateAndNormalizeSummary c) "payment_terms"
      = some (jsOr (getF c "payment_terms") .null) := rfl

lemma getF_vans_termination_clauses (c : JsonObj) :
    getF (validateAndNormalizeSummary c) "termination_clauses"
      = some (jsOr (getF c "termination_clauses") .null) := rfl

lemma getF_vans_governing_law (c : JsonObj) :
    getF (validateAndNormalizeSummary c) "governing_law"
      = some (jsOr (getF c "governing_law") .null) := rfl

lemma getF_vans_risk_flags (c : JsonObj) :
    getF (validateAndNormalizeSummary c) "risk_flags"
      = some (arrOrEmpty (getF c "risk_flags")) := rfl

lemma getF_vans_suggested_redactions (c : JsonObj) :
    getF (validateAndNormalizeSummary c) "suggested_redactions"
      = some (arrOrEmpty (getF c "suggested_redactions")) := rfl

lemma getF_vans_confidence_score (c : JsonObj) :
    getF (validateAndNormalizeSummary c) "confidence_score"
      = some (normConfidence (getF c "confidence_score")) := rfl

/-!
Per-field repair lemmas.
-/

lemma jsOr_fix (v : Option JsonVal) (d : JsonVal) :
    jsOr (some (jsOr v d)) d = jsOr v d := by
  rcases v with _ | x
  · simp [jsOr]
  · by_cases hx : truthy x <;> simp [jsOr, hx]

lemma arrOrEmpty_fix (v : Option JsonVal) :
    arrOrEmpty (some (arrOrEmpty v)) = arrOrEmpty v := by
  rcases v with _ | x
  · rfl
  · cases x <;> rfl

lemma clamp01_mem (q : ℚ) : (0:ℚ) ≤ min 1 (max 0 q) ∧ min 1 (max 0 q) ≤ 1 :=
  ⟨le_min (by norm_num) (le_max_left 0 q), min_le_left 1 _⟩

lemma normConfidence_fix (v : Option JsonVal) :
    normConfidence (some (normConfidence v)) = normConfidence v := by
  rcases v with _ | x
  · show JsonVal.num (min 1 (max 0 (1/2:ℚ))) = JsonVal.num (1/2)
    norm_num
  cases x with
  | num q =>
    show JsonVal.num (min 1 (max 0 (min 1 (max 0 q)))) = JsonVal.num (min 1 (max 0 q))
    rw [max_eq_right (clamp01_mem q).1, min_eq_right (clamp01_mem q).2]
  | null => show JsonVal.num (min 1 (max 0 (1/2:ℚ))) = JsonVal.num (1/2); norm_num
  | bool b => show JsonVal.num (min 1 (max 0 (1/2:ℚ))) = JsonVal.num (1/2); norm_num
  | str s => show JsonVal.num (min 1 (max 0 (1/2:ℚ))) = JsonVal.num (1/2); norm_num
  | arr xs => show JsonVal.num (min 1 (max 0 (1/2:ℚ))) = JsonVal.num (1/2); norm_num
  | obj fs => show JsonVal.num (min 1 (max 0 (1/2:ℚ))) = JsonVal.num (1/2); norm_num

lemma isNonEmptyStrB_jsOr (v : Option JsonVal) (d : String) (hd : d ≠ "")
    (h : stringlikeB v = true) :
    isNonEmptyStrB (some (jsOr v (.str d))) = true := by
  rcases v with _ | x
  · simp [jsOr, truthy, isNonEmptyStrB, hd]
  cases x with
  | str s =>
    by_cases hs : s = "" <;>
      simp [jsOr, truthy, isNonEmptyStrB, hs, hd]
  | null => simp [jsOr, truthy, isNonEmptyStrB, hd]
  | bool b => simp [stringlikeB] at h
  | num q => simp [stringlikeB] at h
  | arr xs => simp [stringlikeB] at h
  | obj fs => simp [stringlikeB] at h

lemma isArrB_arrOrEmpty (v : Option JsonVal) :
    isArrB (some (arrOrEmpty v)) = true := by
  rcases v with _ | x
  · rfl
  · cases x <;> rfl

lemma nonEmptyStrOrNullB_jsOr_null (v : Option JsonVal) (h : stringlikeB v = true) :
    nonEmptyStrOrNullB (some (jsOr v .null)) = true := by
  rcases v with _ | x
  · rfl
  cases x with
  | str s =>
    by_cases hs : s = "" <;>
      simp [jsOr, truthy, nonEmptyStrOrNullB, hs]
  | null => rfl
  | bool b => simp [stringlikeB] at h
  | num q => simp [stringlikeB] at h
  | arr xs => simp [stringlikeB] at h
  | obj fs => simp [stringlikeB] at h

lemma confInRangeB_normConfidence (v : Option JsonVal) :
    confInRangeB (some (normConfidence v)) = true := by
  have hmid : confInRangeB (some (.num (1/2 : ℚ))) = true := by
    show (decide ((0:ℚ) ≤ 1/2) && decide ((1/2 : ℚ) ≤ 1)) = true
    norm_num
  rcases v with _ | x
  · exact hmid
  cases x with
  | num q =>
    show (decide ((0:ℚ) ≤ min 1 (max 0 q)) && decide (min 1 (max 0 q) ≤ 1)) = true
    rw [Bool.and_eq_true, decide_eq_true_eq, decide_eq_true_eq]
    exact clamp01_mem q
  | null => exact hmid
  | bool b => exact hmid
  | str s => exact hmid
  | arr xs => exact hmid
  | obj fs => exact hmid

/-- `getMockSummary` is a fixed point of the normalizer. -/
lemma mock_fixed_point :
    validateAndNormalizeSummary getMockSummary = getMockSummary := by
  simp [validateAndNormalizeSummary, getMockSummary, getF, jsOr, arrOrEmpty,
    normConfidence, truthy]
  norm_num

/-- C1 (counterexample): a candidate whose `payment_terms` field has the
wrong type but is truthy — the number 42 — is passed through unchanged by
`validateAndNormalizeSummary`, so the output's `payment_terms` is neither
a string nor `null`, refuting the claim for wrong-typed fields. -/
theorem normalizer_output_invariants_counterexample :
    getF (validateAndNormalizeSummary [("payment_terms", .num 42)]) "payment_terms"
      = some (.num 42) ∧
    strOrNullB (some (.num 42)) = false :=
  ⟨rfl, rfl⟩

/-- C1 (amended): for every candidate object whose `short_summary`,
`payment_terms`, `termination_clauses` and `governing_law` fields are
each absent, `null` or a string, the normalized result has a non-empty
string `short_summary`; `parties`, `important_dates`, `obligations`,
`risk_flags` and `suggested_redactions` are actual arrays; the three
string-or-null fields are each a non-empty string or `null` (never the
empty string); and `confidence_score` is a number in `[0, 1]`.  (A truthy
candidate value of any other type in one of the four string fields is
passed through unchanged by the source's `||`-defaulting.) -/
theorem normalizer_output_invariants (c : JsonObj)
    (h1 : stringlikeB (getF c "short_summary") = true)
    (h2 : stringlikeB (getF c "payment_terms") = true)
    (h3 : stringlikeB (getF c "termination_clauses") = true)
    (h4 : stringlikeB (getF c "governing_law") = true) :
    isNonEmptyStrB (getF (validateAndNormalizeSummary c) "short_summary") = true ∧
    isArrB (getF (validateAndNormalizeSummary c) "parties") = true ∧
    isArrB (getF (validateAndNormalizeSummary c) "important_dates") = true ∧
    isArrB (getF (validateAndNormalizeSummary c) "obligations") = true ∧
    isArrB (getF (validateAndNormalizeSummary c) "risk_flags") = true ∧
    isArrB (getF (validateAndNormalizeSummary c) "suggested_redactions") = true ∧
    nonEmptyStrOrNullB (getF (validateAndNormalizeSummary c) "payment_terms") = true ∧
    nonEmptyStrOrNullB (getF (validateAndNormalizeSummary c) "termination_clauses") = true ∧
    nonEmptyStrOrNullB (getF (validateAndNormalizeSummary c) "governing_law") = true ∧
    confInRangeB (getF (validateAndNormalizeSummary c) "confidence_score") = true := by
  rw [getF_vans_short_summary, getF_vans_parties, getF_vans_important_dates,
    getF_vans_obligations, getF_vans_risk_flags, getF_vans_suggested_redactions,
    getF_vans_payment_terms, getF_vans_termination_clauses, getF_vans_governing_law,
    getF_vans_confidence_score]
  exact ⟨isNonEmptyStrB_jsOr _ _ (by decide) h1,
    isArrB_arrOrEmpty _, isArrB_arrOrEmpty _, isArrB_arrOrEmpty _,
    isArrB_arrOrEmpty _, isArrB_arrOrEmpty _,
    nonEmptyStrOrNullB_jsOr_null _ h2,
    nonEmptyStrOrNullB_jsOr_null _ h3,
    nonEmptyStrOrNullB_jsOr_null _ h4,
    confInRangeB_normConfidence _⟩

/-- Witness for C1's amended theorem at the empty candidate object. -/
theorem normalizer_output_invariants_witness :
    isNonEmptyStrB (getF (validateAndNormalizeSummary []) "short_summary") = true ∧
    isArrB (getF (validateAndNormalizeSummary []) "parties") = true ∧
    isArrB (getF (validateAndNormalizeSummary []) "important_dates") = true ∧
    isArrB (getF (validateAndNormalizeSummary []) "obligations") = true ∧
    isArrB (getF (validateAndNormalizeSummary []) "risk_flags") = true ∧
    isArrB (getF (validateAndNormalizeSummary []) "suggested_redactions") = true ∧
    nonEmptyStrOrNullB (getF (validateAndNormalizeSummary []) "payment_terms") = true ∧
    nonEmptyStrOrNullB (getF (validateAndNormalizeSummary []) "termination_clauses") = true ∧
    nonEmptyStrOrNullB (getF (validateAndNormalizeSummary []) "governing_law") = true ∧
    confInRangeB (getF (validateAndNormalizeSummary []) "confidence_score") = true :=
  normalizer_output_invariants [] rfl rfl rfl rfl

/-- C2: the Summary Response Normalizer is idempotent — normalizing an
already-normalized candidate returns exactly the same object. -/
theorem normalizer_idempotent (c : JsonObj) :
    validateAndNormalizeSummary (validateAndNormalizeSummary c)
      = validateAndNormalizeSummary c := by
  rw [vans_def (validateAndNormalizeSummary c)]
  rw [getF_vans_short_summary, getF_vans_parties, getF_vans_important_dates,
    getF_vans_obligations, getF_vans_risk_flags, getF_vans_suggested_redactions,
    getF_vans_payment_terms, getF_vans_termination_clauses, getF_vans_governing_law,
    getF_vans_confidence_score]
  rw [jsOr_fix, jsOr_fix, jsOr_fix, jsOr_fix, arrOrEmpty_fix, arrOrEmpty_fix,
    arrOrEmpty_fix, arrOrEmpty_fix, arrOrEmpty_fix, normConfidence_fix]
  exact (vans_def c).symm

/-- C3: `confidence_score` is accepted only when it is a number, in which
case it is clamped to `[0, 1]`; any other shape defaults to `0.5`; and
concretely `1.5 ↦ 1`, `-0.5 ↦ 0`, `0.75 ↦ 0.75`, absent `↦ 0.5`. -/
theorem confidence_score_clamping :
    (∀ (c : JsonObj) (q : ℚ), getF c "confidence_score" = some (.num q) →
       getF (validateAndNormalizeSummary c) "confidence_score"
         = some (.num (min 1 (max 0 q)))) ∧
    (∀ c : JsonObj, isNumB (getF c "confidence_score") = false →
       getF (validateAndNormalizeSummary c) "confidence_score"
         = some (.num (1/2))) ∧
    getF (validateAndNormalizeSummary [("confidence_score", .num (3/2))])
      "confidence_score" = some (.num 1) ∧
    getF (validateAndNormalizeSummary [("confidence_score", .num (-(1/2)))])
      "confidence_score" = some (.num 0) ∧
    getF (validateAndNormalizeSummary [("confidence_score", .num (3/4))])
      "confidence_score" = some (.num (3/4)) ∧
    getF (validateAndNormalizeSummary []) "confidence_score"
      = some (.num (1/2)) := by
  refine ⟨?_, ?_, ?_, ?_, ?_, rfl⟩
  · intro c q h
    rw [getF_vans_confidence_score, h]
    rfl
  · intro c h
    rw [getF_vans_confidence_score]
    rcases hv : getF c "confidence_score" with _ | x
    · rfl
    · rw [hv] at h
      cases x <;> first
        | rfl
        | (simp [isNumB] at h)
  · rw [getF_vans_confidence_score]
    show some (JsonVal.num (min 1 (max 0 (3/2 : ℚ)))) = some (.num 1)
    norm_num
  · rw [getF_vans_confidence_score]
    show some (JsonVal.num (min 1 (max 0 (-(1/2) : ℚ)))) = some (.num 0)
    norm_num
  · rw [getF_vans_confidence_score]
    show some (JsonVal.num (min 1 (max 0 (3/4 : ℚ)))) = some (.num (3/4))
    norm_num

/-- Witness for C3 at concrete inputs: the number branch at
`confidence_score = 2` and the default branch at the empty object. -/
theorem confidence_score_clamping_witness :
    getF (validateAndNormalizeSummary [("confidence_score", .num 2)])
      "confidence_score" = some (.num (min 1 (max 0 2))) ∧
    getF (validateAndNormalizeSummary []) "confidence_score"
      = some (.num (1/2)) :=
  ⟨confidence_score_clamping.1 [("confidence_score", .num 2)] 2 rfl,
   confidence_score_clamping.2.1 [] rfl⟩

/-- C4 (counterexample): a Document AI response whose document is present
but contains one page with empty `blocks` and `lines` lists — zero
extractable content — yields a successful `OCRResult` with an empty page,
not an error; likewise a Textract response whose `Blocks` field is the
empty list.  This refutes the claim that zero extractable content always
raises a distinct error. -/
theorem adapter_zero_content_counterexample :
    googleParseResponse
        (some { text := none, pages := some [{ blocks := some [], lines := some [] }],
                entities := none }) "scan.pdf" "t0"
      = .ok { meta := { filename := "scan.pdf", pages := 1,
                        provider := "google-document-ai", processedAt := "t0" },
              ocr := [{ page := 1, text := "", blocks := [], entities := [],
                        confidence := 0 }] } ∧
    processWithAWSTextract (some []) "scan.pdf" "t0"
      = .ok { meta := { filename := "scan.pdf", pages := 1,
                        provider := "aws-textract", processedAt := "t0" },
              ocr := [{ page := 1, text := "", blocks := [], entities := [],
                        confidence := 0 }] } :=
  ⟨rfl, rfl⟩

/-- C4 (amended): each adapter raises its distinct error only when the
backend response carries no content container at all — Document AI
returning no `document`, Textract returning no `Blocks` field; a response
whose containers are present but hold zero blocks/lines instead yields a
successful result containing an empty page with confidence 0. -/
theorem adapter_zero_content_behavior :
    (∀ filename now : String, googleParseResponse none filename now
       = .error "No document returned from Document AI") ∧
    (∀ filename now : String, processWithAWSTextract none filename now
       = .error "No blocks returned from Textract") ∧
    (∀ filename now : String,
       googleParseResponse
           (some { text := none, pages := some [{ blocks := some [], lines := some [] }],
                   entities := none }) filename now
         = .ok { meta := { filename := filename, pages := 1,
                           provider := "google-document-ai", processedAt := now },
                 ocr := [{ page := 1, text := "", blocks := [], entities := [],
                           confidence := 0 }] }) ∧
    (∀ filename now : String,
       processWithAWSTextract (some []) filename now
         = .ok { meta := { filename := filename, pages := 1,
                           provider := "aws-textract", processedAt := now },
                 ocr := [{ page := 1, text := "", blocks := [], entities := [],
                           confidence := 0 }] }) :=
  ⟨fun _ _ => rfl, fun _ _ => rfl, fun _ _ => rfl, fun _ _ => rfl⟩

/-!
C5: page confidence is the arithmetic mean of the block confidences.
-/

lemma layoutLoop_sums (pre : String) (bt : BlockType) (ft : String)
    (l : List (Option GLayout)) : ∀ k : ℕ,
    (layoutLoop pre bt ft k l).2.2.1
      = (((layoutLoop pre bt ft k l).1).map OCRBlock.confidence).sum ∧
    (layoutLoop pre bt ft k l).2.2.2 = ((layoutLoop pre bt ft k l).1).length := by
  induction l with
  | nil => intro k; simp [layoutLoop]
  | cons hd tl ih =>
    intro k
    cases hd with
    | none => simpa [layoutLoop] using ih k
    | some layout =>
      refine ⟨?_, ?_⟩
      · simp [layoutLoop, (ih (k + 1)).1]
      · simp [layoutLoop, (ih (k + 1)).2, Nat.add_comm]

lemma awsLineLoop_sums (l : List TBlock) : ∀ k : ℕ,
    (awsLineLoop k l).2.2.1
      = (((awsLineLoop k l).1).map OCRBlock.confidence).sum ∧
    (awsLineLoop k l).2.2.2 = ((awsLineLoop k l).1).length := by
  induction l with
  | nil => intro k; simp [awsLineLoop]
  | cons b tl ih =>
    intro k
    by_cases hb : b.BlockType = some "LINE" ∧ truthyS b.Text
    · refine ⟨?_, ?_⟩
      · simp [awsLineLoop, hb, (ih (k + 1)).1]
      · simp [awsLineLoop, hb, (ih (k + 1)).2, Nat.add_comm]
    · simpa [awsLineLoop, hb] using ih k

lemma mean_of_counts (bs : List OCRBlock) (tot : ℚ) (cnt : ℕ)
    (h1 : tot = (bs.map OCRBlock.confidence).sum) (h2 : cnt = bs.length) :
    (if cnt > 0 then tot / (cnt : ℚ) else 0) = meanConfidence bs := by
  subst h1 h2
  unfold meanConfidence
  rcases Nat.eq_zero_or_pos bs.length with h | h
  · simp [h]
  · simp [h, h.ne']

lemma googlePage_confidence_mean (doc : GDocument) (i : ℕ) :
    (googlePage doc i).confidence = meanConfidence (googlePage doc i).blocks := by
  have hs : (googlePageRaw doc i).2.2.1
        = (((googlePageRaw doc i).1).map OCRBlock.confidence).sum ∧
      (googlePageRaw doc i).2.2.2 = ((googlePageRaw doc i).1).length := by
    unfold googlePageRaw
    dsimp only
    split
    · exact layoutLoop_sums _ _ _ _ 0
    · exact layoutLoop_sums _ _ _ _ 0
  exact mean_of_counts _ _ _ hs.1 hs.2

/-- C5: in every successfully assembled OCR result — from either
provider adapter — each page's confidence equals the arithmetic mean of
the confidences of the blocks collected on that page, and equals 0 when
the page has no blocks (`meanConfidence` is 0 on the empty list; no
NaN/undefined value exists in this model). -/
theorem page_confidence_is_mean :
    (∀ (document : Option GDocument) (filename now : String) (r : OCRResult),
       googleParseResponse document filename now = .ok r →
       ∀ pg ∈ r.ocr, pg.confidence = meanConfidence pg.blocks) ∧
    (∀ (Blocks : Option (List TBlock)) (filename now : String) (r : OCRResult),
       processWithAWSTextract Blocks filename now = .ok r →
       ∀ pg ∈ r.ocr, pg.confidence = meanConfidence pg.blocks) := by
  constructor
  · rintro document filename now r h pg hpg
    rcases document with _ | doc
    · simp [googleParseResponse] at h
    · simp only [googleParseResponse, Except.ok.injEq] at h
      subst h
      simp only [List.mem_map] at hpg
      obtain ⟨i, _, rfl⟩ := hpg
      exact googlePage_confidence_mean doc i
  · rintro Blocks filename now r h pg hpg
    rcases Blocks with _ | bs
    · simp [processWithAWSTextract] at h
    · simp only [processWithAWSTextract, Except.ok.injEq] at h
      subst h
      simp only [List.mem_singleton] at hpg
      subst hpg
      exact mean_of_counts _ _ _ (awsLineLoop_sums bs 0).1 (awsLineLoop_sums bs 0).2

/-- A Document AI response with one page of three blocks with confidences
0.9, 0.8 and 0.7 (no text anchors, no geometry). -/
def gdoc3 : GDocument :=
  { text := none,
    pages := some
      [{ blocks := some
           [⟨some { textAnchor := none, confidence := some (9/10), boundingPoly := none }⟩,
            ⟨some { textAnchor := none, confidence := some (4/5), boundingPoly := none }⟩,
            ⟨some { textAnchor := none, confidence := some (7/10), boundingPoly := none }⟩],
         lines := none }],
    entities := none }

/-- Witness for C5 on the page `gdoc3` produces: its confidence is the
mean of its block confidences, concretely `(0.9 + 0.8 + 0.7)/3 = 0.8`. -/
theorem page_confidence_is_mean_witness :
    (googlePage gdoc3 0).confidence = meanConfidence (googlePage gdoc3 0).blocks ∧
    (googlePage gdoc3 0).confidence = 4/5 := by
  constructor
  · exact page_confidence_is_mean.1 (some gdoc3) "scan.pdf" "t0"
      { meta := { filename := "scan.pdf", pages := 1,
                  provider := "google-document-ai", processedAt := "t0" },
        ocr := (List.range 1).map (googlePage gdoc3) }
      rfl (googlePage gdoc3 0) (by simp)
  · show ((9/10 : ℚ) + ((4/5 : ℚ) + ((7/10 : ℚ) + 0))) / ((3 : ℕ) : ℚ) = 4/5
    push_cast
    norm_num

/-!
C6, C9, C10: the mock/skip control flow of the summarize endpoint.
-/

lemma truthyOpt_some (v : JsonVal) : truthyOpt (some v) = truthy v := rfl

lemma truthyOpt_none : truthyOpt none = false := rfl

lemma summarize_skip_mock (skip key : Option String) (llm : Except String JsonObj)
    (v : JsonVal) (ui : Option JsonVal)
    (hskip : skip = some "true") (hv : truthy v = true) :
    summarizePost skip key llm (some v) ui = .ok getMockSummary := by
  simp [summarizePost, truthyOpt_some, hv, hskip]

lemma summarize_nokey_mock (skip key : Option String) (llm : Except String JsonObj)
    (v : JsonVal) (ui : Option JsonVal)
    (hskip : skip ≠ some "true") (hkey : truthyS key = false)
    (hv : truthy v = true)
    (hmeta : truthyOpt (fieldOf v "meta") = true)
    (hocr : truthyOpt (fieldOf v "ocr") = true) :
    summarizePost skip key llm (some v) ui = .ok getMockSummary := by
  simp [summarizePost, truthyOpt_some, hv, hskip, hmeta, hocr, hkey]

lemma summarize_mock_paths (skip key : Option String) (llm : Except String JsonObj)
    (v : JsonVal) (ui : Option JsonVal)
    (hmode : skip = some "true" ∨ truthyS key = false)
    (hv : truthy v = true)
    (hmeta : truthyOpt (fieldOf v "meta") = true)
    (hocr : truthyOpt (fieldOf v "ocr") = true) :
    summarizePost skip key llm (some v) ui = .ok getMockSummary := by
  rcases hmode with hskip | hkey
  · exact summarize_skip_mock skip key llm v ui hskip hv
  · by_cases hskip : skip = some "true"
    · exact summarize_skip_mock skip key llm v ui hskip hv
    · exact summarize_nokey_mock skip key llm v ui hskip hkey hv hmeta hocr

/-- C6: with mock/skip mode enabled (the `SKIP_LLM` flag set to `"true"`
or the Gemini credential absent/empty), summarizing any structurally
valid OCR result returns the fixed mock summary for every possible
backend value `llm` (so no backend call can influence the response); the
mock has `confidence_score` 0.95 and a non-empty `parties` array, and is
a fixed point of the normalizer. -/
theorem mock_mode_summary (skip key : Option String) (llm : Except String JsonObj)
    (v : JsonVal) (ui : Option JsonVal)
    (hmode : skip = some "true" ∨ truthyS key = false)
    (hv : truthy v = true)
    (hmeta : truthyOpt (fieldOf v "meta") = true)
    (hocr : truthyOpt (fieldOf v "ocr") = true) :
    summarizePost skip key llm (some v) ui = .ok getMockSummary ∧
    getF getMockSummary "confidence_score" = some (.num (19/20)) ∧
    (∃ ps : List JsonVal, getF getMockSummary "parties" = some (.arr ps) ∧ ps ≠ []) ∧
    validateAndNormalizeSummary getMockSummary = getMockSummary :=
  ⟨summarize_mock_paths skip key llm v ui hmode hv hmeta hocr,
   rfl, ⟨_, rfl, by simp⟩, mock_fixed_point⟩

/-- Witness for C6 with the skip flag set, an arbitrary failing backend
and a minimal valid OCR result. -/
theorem mock_mode_summary_witness :
    summarizePost (some "true") none (.error "backend down")
        (some (.obj [("meta", .obj []), ("ocr", .arr [])])) none
      = .ok getMockSummary ∧
    getF getMockSummary "confidence_score" = some (.num (19/20)) ∧
    (∃ ps : List JsonVal, getF getMockSummary "parties" = some (.arr ps) ∧ ps ≠ []) ∧
    validateAndNormalizeSummary getMockSummary = getMockSummary :=
  mock_mode_summary (some "true") none (.error "backend down")
    (.obj [("meta", .obj []), ("ocr", .arr [])]) none (Or.inl rfl) rfl rfl rfl

/-- C9: when the Gemini credential is absent (or empty), the summarize
flow does not fail — it returns the successful mock summary for every
backend value — whereas the Google OCR adapter with missing configuration
raises an error (`Except.error`, turned into a 500 by its route). -/
theorem credential_fallback_asymmetry :
    (∀ (skip key : Option String) (llm : Except String JsonObj)
       (v : JsonVal) (ui : Option JsonVal),
       truthyS key = false → truthy v = true →
       truthyOpt (fieldOf v "meta") = true → truthyOpt (fieldOf v "ocr") = true →
       summarizePost skip key llm (some v) ui = .ok getMockSummary) ∧
    (∀ (cfg : GoogleConfig) (document : Option GDocument) (filename now : String),
       truthyS cfg.projectId = false ∨ truthyS cfg.location = false ∨
         truthyS cfg.processorId = false →
       processWithGoogleDocumentAI cfg document filename now
         = .error "Missing Google Cloud configuration. Please set GOOGLE_CLOUD_PROJECT_ID, GOOGLE_CLOUD_LOCATION, and GOOGLE_DOCUMENT_AI_PROCESSOR_ID in your environment variables.") := by
  constructor
  · intro skip key llm v ui hkey hv hmeta hocr
    exact summarize_mock_paths skip key llm v ui (Or.inr hkey) hv hmeta hocr
  · intro cfg document filename now h
    rcases h with h | h | h <;> simp [processWithGoogleDocumentAI, h]

/-- Witness for C9: an empty-string credential falls back to the mock,
and an entirely unset Google configuration yields the configuration
error. -/
theorem credential_fallback_asymmetry_witness :
    summarizePost none (some "") (.error "x")
        (some (.obj [("meta", .obj []), ("ocr", .arr [])])) none
      = .ok getMockSummary ∧
    processWithGoogleDocumentAI ⟨none, none, none, none, none⟩ none "a.pdf" "t0"
      = .error "Missing Google Cloud configuration. Please set GOOGLE_CLOUD_PROJECT_ID, GOOGLE_CLOUD_LOCATION, and GOOGLE_DOCUMENT_AI_PROCESSOR_ID in your environment variables." :=
  ⟨credential_fallback_asymmetry.1 none (some "") (.error "x")
     (.obj [("meta", .obj []), ("ocr", .arr [])]) none rfl rfl rfl rfl,
   credential_fallback_asymmetry.2 ⟨none, none, none, none, none⟩ none "a.pdf" "t0"
     (Or.inl rfl)⟩

/-- C10: with the skip flag set, every truthy `ocr_result` — even one
missing the `meta` or `ocr` fields — yields the successful mock summary
(the structural validation never runs); only a falsy or missing
`ocr_result` still yields the 400 "No OCR result provided" error. -/
theorem skip_flag_bypasses_validation :
    (∀ (key : Option String) (llm : Except String JsonObj)
       (v : JsonVal) (ui : Option JsonVal), truthy v = true →
       summarizePost (some "true") key llm (some v) ui = .ok getMockSummary) ∧
    (∀ (key : Option String) (llm : Except String JsonObj)
       (v : JsonVal) (ui : Option JsonVal), truthy v = false →
       summarizePost (some "true") key llm (some v) ui
         = .err 400 "No OCR result provided" none) ∧
    (∀ (key : Option String) (llm : Except String JsonObj) (ui : Option JsonVal),
       summarizePost (some "true") key llm none ui
         = .err 400 "No OCR result provided" none) := by
  refine ⟨?_, ?_, ?_⟩
  · intro key llm v ui hv
    exact summarize_skip_mock (some "true") key llm v ui rfl hv
  · intro key llm v ui hv
    simp [summarizePost, truthyOpt_some, hv]
  · intro key llm ui
    simp [summarizePost, truthyOpt_none]

/-- Witness for C10: a truthy `ocr_result` missing both `meta` and `ocr`
(the empty object) still gets the mock summary under the skip flag, and
`null` (falsy) is still rejected with the 400 error. -/
theorem skip_flag_bypasses_validation_witness :
    summarizePost (some "true") (some "k") (.error "x") (some (.obj [])) none
      = .ok getMockSummary ∧
    summarizePost (some "true") (some "k") (.error "x") (some .null) none
      = .err 400 "No OCR result provided" none :=
  ⟨(skip_flag_bypasses_validation.1 (some "k") (.error "x") (.obj []) none rfl),
   (skip_flag_bypasses_validation.2.1 (some "k") (.error "x") .null none rfl)⟩

/-- C7: when the provider supplies a bounding polygon of at least four
vertices, the box is derived from the first vertex as origin and the
second/third vertices' extents (`width = v1.x − v0.x`,
`height = v2.y − v0.y`); any polygon with fewer than four vertices, a
missing vertex list, or a missing polygon gives the zero box. -/
theorem bounding_box_from_polygon :
    (∀ (x0 y0 x1 y2 : ℚ) (v1y v2x : Option ℚ) (v3 : GVertex) (rest : List GVertex),
       extractBoundingBox (some ⟨some (⟨some x0, some y0⟩ :: ⟨some x1, v1y⟩ ::
           ⟨v2x, some y2⟩ :: v3 :: rest)⟩)
         = ⟨x0, y0, x1 - x0, y2 - y0⟩) ∧
    (∀ vs : List GVertex, vs.length < 4 →
       extractBoundingBox (some ⟨some vs⟩) = ⟨0, 0, 0, 0⟩) ∧
    extractBoundingBox (some ⟨none⟩) = ⟨0, 0, 0, 0⟩ ∧
    extractBoundingBox none = ⟨0, 0, 0, 0⟩ := by
  refine ⟨?_, ?_, rfl, rfl⟩
  · intro x0 y0 x1 y2 v1y v2x v3 rest
    have hlen : ¬ ((⟨some x0, some y0⟩ :: ⟨some x1, v1y⟩ :: ⟨v2x, some y2⟩ ::
        v3 :: rest : List GVertex).length < 4) := by
      simp only [List.length_cons]
      omega
    simp [extractBoundingBox, hlen, qOrZero]
  · intro vs h
    simp [extractBoundingBox, h]

/-- Witness for C7: a four-vertex rectangle polygon and a one-vertex
polygon. -/
theorem bounding_box_from_polygon_witness :
    extractBoundingBox (some ⟨some [⟨some (1/10), some (1/5)⟩, ⟨some (3/5), some (1/5)⟩,
        ⟨some (3/5), some (3/10)⟩, ⟨some (1/10), some (3/10)⟩]⟩)
      = ⟨1/10, 1/5, 3/5 - 1/10, 3/10 - 1/5⟩ ∧
    extractBoundingBox (some ⟨some [⟨some 1, some 1⟩]⟩) = ⟨0, 0, 0, 0⟩ :=
  ⟨bounding_box_from_polygon.1 (1/10) (1/5) (3/5) (3/10) (some (1/5)) (some (3/5))
     ⟨some (1/10), some (3/10)⟩ [],
   bounding_box_from_polygon.2.1 [⟨some 1, some 1⟩] (by simp)⟩

/-- C8: every page of the payload built for the summarization backend
comes from a source page whose blocks were capped with `take 50` — so at
most 50 blocks are sent, a page with at most 50 blocks is sent unchanged
— while its entities are passed through in full. -/
theorem gemini_payload_block_cap (ocrData : OCRResult) (ui : Option String) :
    ∀ q ∈ (buildGeminiInput ocrData ui).ocr,
      ∃ p ∈ ocrData.ocr,
        q.blocks = p.blocks.take 50 ∧ q.blocks.length ≤ 50 ∧
        (p.blocks.length ≤ 50 → q.blocks = p.blocks) ∧
        q.entities = p.entities := by
  intro q hq
  simp only [buildGeminiInput, List.mem_map] at hq
  obtain ⟨p, hp, rfl⟩ := hq
  refine ⟨p, hp, rfl, List.length_take_le 50 p.blocks, ?_, rfl⟩
  intro h
  exact List.take_of_length_le h

/-- A one-page, one-block OCR result used as the C8 witness input. -/
def ocr1 : OCRResult :=
  { meta := { filename := "a.pdf", pages := 1,
              provider := "google-document-ai", processedAt := "t0" },
    ocr := [{ page := 1, text := "x",
              blocks := [{ id := "b0", text := "x", confidence := 1,
                           boundingBox := ⟨0, 0, 0, 0⟩, blockType := .LINE }],
              entities := [{ type := "DATE", text := "2024-01-15", page := 1,
                             confidence := 1, mentionText := none }],
              confidence := 1 }] }

/-- Witness for C8 at `ocr1`. -/
theorem gemini_payload_block_cap_witness :
    ∃ p ∈ ocr1.ocr,
      ({ page := 1, text := "x",
         blocks := [{ id := "b0", text := "x", confidence := 1,
                      boundingBox := ⟨0, 0, 0, 0⟩, blockType := .LINE }],
         entities := [{ type := "DATE", text := "2024-01-15", page := 1,
                        confidence := 1, mentionText := none }] } : GeminiPage).blocks
          = p.blocks.take 50 ∧
        ({ page := 1, text := "x",
           blocks := [{ id := "b0", text := "x", confidence := 1,
                        boundingBox := ⟨0, 0, 0, 0⟩, blockType := .LINE }],
           entities := [{ type := "DATE", text := "2024-01-15", page := 1,
                          confidence := 1, mentionText := none }] } : GeminiPage).blocks.length
          ≤ 50 ∧
        (p.blocks.length ≤ 50 →
          ({ page := 1, text := "x",
             blocks := [{ id := "b0", text := "x", confidence := 1,
                          boundingBox := ⟨0, 0, 0, 0⟩, blockType := .LINE }],
             entities := [{ type := "DATE", text := "2024-01-15", page := 1,
                            confidence := 1, mentionText := none }] } : GeminiPage).blocks
            = p.blocks) ∧
        ({ page := 1, text := "x",
           blocks := [{ id := "b0", text := "x", confidence := 1,
                        boundingBox := ⟨0, 0, 0, 0⟩, blockType := .LINE }],
           entities := [{ type := "DATE", text := "2024-01-15", page := 1,
                          confidence := 1, mentionText := none }] } : GeminiPage).entities
          = p.entities :=
  gemini_payload_block_cap ocr1 none
    { page := 1, text := "x",
      blocks := [{ id := "b0", text := "x", confidence := 1,
                   boundingBox := ⟨0, 0, 0, 0⟩, blockType := .LINE }],
      entities := [{ type := "DATE", text := "2024-01-15", page := 1,
                     confidence := 1, mentionText := none }] }
    (by simp [buildGeminiInput, ocr1])
